import Mathlib

/-!
Verification of the GRR user subsystem (`grr/lib/aff4_objects/users.py`):
credential hashing and checking (`CryptedPassword`, `GRRUser.CheckPassword`),
the per-user notification inbox (`GRRUser.Notify`,
`GRRUser.DeletePendingNotification`, `GRRUser.ShowNotifications`) and the
global-notification machinery (`GlobalNotification`, `GlobalNotificationSet`,
`GRRUser.GetPendingGlobalNotifications`).

Python 2 byte strings are modelled as `List Nat` (each element one byte, the
value `ord` would return).  The external attributed store (`Get`/`Set`/`Flush`)
is modelled by explicit state passing: an operation's resulting stored state is
whatever has been `Set` when the operation returns or raises; a raise before
the `Set` calls leaves the stored state unchanged.  Raised exceptions are
modelled as an `Option GrrError` component of the result.
-/

set_option maxRecDepth 100000

/-- A Python 2 byte string: the list of its bytes. -/
abbrev PyStr := List Nat

/- ### SHA-256 (shallow embedding of `hashlib.sha256(data).hexdigest()`) -/

/-- Truncation to a 32-bit word. -/
def wmod (n : Nat) : Nat := n % 4294967296

/-- Right rotation of a 32-bit word by `k` bits. -/
def rotr (k n : Nat) : Nat := wmod ((n >>> k) ||| (n <<< (32 - k)))

/-- SHA-256 small sigma 0. -/
def ssig0 (x : Nat) : Nat := rotr 7 x ^^^ rotr 18 x ^^^ (x >>> 3)

/-- SHA-256 small sigma 1. -/
def ssig1 (x : Nat) : Nat := rotr 17 x ^^^ rotr 19 x ^^^ (x >>> 10)

/-- SHA-256 big sigma 0. -/
def bsig0 (x : Nat) : Nat := rotr 2 x ^^^ rotr 13 x ^^^ rotr 22 x

/-- SHA-256 big sigma 1. -/
def bsig1 (x : Nat) : Nat := rotr 6 x ^^^ rotr 11 x ^^^ rotr 25 x

/-- SHA-256 choice function; the complement is taken within 32 bits. -/
def chW (x y z : Nat) : Nat := (x &&& y) ^^^ ((x ^^^ 4294967295) &&& z)

/-- SHA-256 majority function. -/
def majW (x y z : Nat) : Nat := (x &&& y) ^^^ (x &&& z) ^^^ (y &&& z)

/-- The 64 SHA-256 round constants. -/
def sha256K : List Nat :=
  [1116352408, 1899447441, 3049323471, 3921009573,
   961987163, 1508970993, 2453635748, 2870763221,
   3624381080, 310598401, 607225278, 1426881987,
   1925078388, 2162078206, 2614888103, 3248222580,
   3835390401, 4022224774, 264347078, 604807628,
   770255983, 1249150122, 1555081692, 1996064986,
   2554220882, 2821834349, 2952996808, 3210313671,
   3336571891, 3584528711, 113926993, 338241895,
   666307205, 773529912, 1294757372, 1396182291,
   1695183700, 1986661051, 2177026350, 2456956037,
   2730485921, 2820302411, 3259730800, 3345764771,
   3516065817, 3600352804, 4094571909, 275423344,
   430227734, 506948616, 659060556, 883997877,
   958139571, 1322822218, 1537002063, 1747873779,
   1955562222, 2024104815, 2227730452, 2361852424,
   2428436474, 2756734187, 3204031479, 3329325298]

/-- The SHA-256 initial hash value. -/
def sha256H0 : List Nat :=
  [1779033703, 3144134277, 1013904242, 2773480762,
   1359893119, 2600822924, 528734635, 1541459225]

/-- `k` big-endian bytes of `n`, most significant first. -/
def beBytes : Nat → Nat → List Nat
  | 0, _ => []
  | k + 1, n => beBytes k (n / 256) ++ [n % 256]

/-- SHA-256 padding: append `0x80`, zeros, and the 64-bit bit length. -/
def sha256Pad (msg : List Nat) : List Nat :=
  msg ++ [128] ++ List.replicate ((119 - msg.length % 64) % 64) 0
      ++ beBytes 8 (8 * msg.length)

/-- Group bytes into big-endian 32-bit words. -/
def toWords : List Nat → List Nat
  | a :: b :: c :: d :: rest => (((a * 256 + b) * 256 + c) * 256 + d) :: toWords rest
  | _ => []

/-- Extend a 16-word block with `k` further message-schedule words. -/
def extendW : Nat → List Nat → List Nat
  | 0, w => w
  | k + 1, w =>
    extendW k (w ++ [wmod (ssig1 (w.getD (w.length - 2) 0) + w.getD (w.length - 7) 0
      + ssig0 (w.getD (w.length - 15) 0) + w.getD (w.length - 16) 0)])

/-- The 64 compression rounds; the state is the eight working variables. -/
def sha256Rounds : List (Nat × Nat) → Nat → Nat → Nat → Nat → Nat → Nat → Nat → Nat → List Nat
  | [], a, b, c, d, e, f, g, h => [a, b, c, d, e, f, g, h]
  | (kt, wt) :: rest, a, b, c, d, e, f, g, h =>
    sha256Rounds rest (wmod (wmod (h + bsig1 e + chW e f g + kt + wt) + wmod (bsig0 a + majW a b c)))
      a b c (wmod (d + wmod (h + bsig1 e + chW e f g + kt + wt))) e f g

/-- Compress one 16-word block into the running hash value. -/
def sha256Compress (hs : List Nat) (block : List Nat) : List Nat :=
  let out := sha256Rounds (sha256K.zip (extendW 48 block))
    (hs.getD 0 0) (hs.getD 1 0) (hs.getD 2 0) (hs.getD 3 0)
    (hs.getD 4 0) (hs.getD 5 0) (hs.getD 6 0) (hs.getD 7 0)
  (hs.zip out).map (fun p => wmod (p.1 + p.2))

/-- Fold the compression function over all 16-word blocks (the padded input
is always a whole number of 16-word blocks). -/
def sha256Blocks (hs : List Nat) : List Nat → List Nat
  | w0 :: w1 :: w2 :: w3 :: w4 :: w5 :: w6 :: w7 ::
    w8 :: w9 :: w10 :: w11 :: w12 :: w13 :: w14 :: w15 :: rest =>
    sha256Blocks (sha256Compress hs
      [w0, w1, w2, w3, w4, w5, w6, w7, w8, w9, w10, w11, w12, w13, w14, w15]) rest
  | _ => hs

/-- Serialize 32-bit words as big-endian bytes. -/
def wordsBytes : List Nat → List Nat
  | [] => []
  | w :: rest => beBytes 4 w ++ wordsBytes rest

/-- ASCII code of the lowercase hex digit for `d < 16`. -/
def hexChar (d : Nat) : Nat := if d < 10 then 48 + d else 87 + d

/-- Two lowercase hex characters per byte. -/
def bytesHex : List Nat → List Nat
  | [] => []
  | b :: rest => hexChar (b / 16) :: hexChar (b % 16) :: bytesHex rest

/-- `hashlib.sha256(msg).hexdigest()` as a byte string of 64 hex characters. -/
def sha256hex (msg : PyStr) : PyStr :=
  bytesHex (wordsBytes (sha256Blocks sha256H0 (toWords (sha256Pad msg))))

/- ### CryptedPassword (`users.py`, class `CryptedPassword`) -/

namespace CryptedPassword

/-- The bytes of `"sha256"`. -/
def sha256Tag : PyStr := [115, 104, 97, 50, 53, 54]

/-- The byte of the separator `"$"`. -/
def dollar : Nat := 36

/-- Python's `value.split(sep)` for a one-byte separator: `"".split` is `[""]`,
and every occurrence of the separator starts a new chunk. -/
def pySplit (sep : Nat) : PyStr → List PyStr
  | [] => [[]]
  | c :: rest =>
    if c = sep then [] :: pySplit sep rest
    else
      match pySplit sep rest with
      | [] => [[c]]
      | h :: t => (c :: h) :: t

/-- `_MakeTemplate`: `"%s$%s$%s" % ("sha256", salt, pwhash)`. -/
def MakeTemplate (pwhash salt : PyStr) : PyStr :=
  sha256Tag ++ [dollar] ++ salt ++ [dollar] ++ pwhash

/-- `safe_str_cmp`: length check, then OR-accumulation of per-byte XORs with
no early exit.  On byte strings `ord` is the identity. -/
def safe_str_cmp (a b : PyStr) : Bool :=
  if a.length ≠ b.length then false
  else ((a.zip b).foldl (fun rv p => rv ||| (p.1 ^^^ p.2)) 0) == 0

/-- `_CalculateHash`: `sha256(salt + password + salt).hexdigest()` rendered
through the template. -/
def CalculateHash (password salt : PyStr) : PyStr :=
  MakeTemplate (sha256hex (salt ++ password ++ salt)) salt

/-- `SetPassword` with an explicit salt (when `salt is None` the source draws
an 8-hex-digit salt from the PRNG; the drawn salt is a parameter here). -/
def SetPassword (password salt : PyStr) : PyStr :=
  CalculateHash password salt

/-- `_CheckLegacyPassword`: `crypt.crypt(password, stored[:2]) == stored`.
The platform `crypt` primitive is external; it is passed in as `cryptFn`. -/
def CheckLegacyPassword (cryptFn : PyStr → PyStr → PyStr) (v password : PyStr) : Bool :=
  cryptFn password (v.take 2) == v

/-- `CheckPassword`: modern-format strings (prefixed `"sha256$"`) recover the
salt as `value.split("$")[1]` and compare against the recomputed template with
`safe_str_cmp`; anything else goes to the legacy `crypt` path. -/
def CheckPassword (cryptFn : PyStr → PyStr → PyStr) (v password : PyStr) : Bool :=
  if (sha256Tag ++ [dollar]).isPrefixOf v then
    safe_str_cmp v (CalculateHash password ((pySplit dollar v).getD 1 []))
  else
    CheckLegacyPassword cryptFn v password

end CryptedPassword

/- ### GRRUser password checking (`users.py`, `GRRUser.CheckPassword`) -/

/-- The value of the Python expression
`password_obj and password_obj.CheckPassword(password)`: `None` when the
`password` field is unset, the (falsy) credential object itself when it is the
empty string, and otherwise the boolean from `CryptedPassword.CheckPassword`. -/
inductive PwCheckResult where
  | pyNone
  | pyObj (v : PyStr)
  | pyBool (b : Bool)
deriving DecidableEq, Repr

namespace GRRUser

/-- `GRRUser.CheckPassword`: `Get` the stored credential (modelled by the
`stored` argument, `none` when the field is absent) and evaluate
`password_obj and password_obj.CheckPassword(password)`. -/
def CheckPassword (cryptFn : PyStr → PyStr → PyStr) (stored : Option PyStr)
    (password : PyStr) : PwCheckResult :=
  match stored with
  | none => .pyNone
  | some v =>
    if v = [] then .pyObj v
    else .pyBool (CryptedPassword.CheckPassword cryptFn v password)

end GRRUser

/- ### Notification inbox (`users.py`, `GRRUser` notification methods) -/

/-- One entry of a `NotificationList`, with the fields `Notify` appends. -/
structure Notification where
  type : String
  subject : String
  message : String
  source : String
  timestamp : Nat
deriving DecidableEq, Repr

/-- The per-user stored notification state: the `PENDING_NOTIFICATIONS` and
`SHOWN_NOTIFICATIONS` attributes of the user's record. -/
structure UserState where
  pending : List Notification
  shown : List Notification
deriving DecidableEq, Repr

/-- The exceptions raised by the notification methods: `TypeError` from
`Notify` and `UniqueKeyError` from `DeletePendingNotification`. -/
inductive GrrError where
  | typeError
  | uniqueKeyError
deriving DecidableEq, Repr

/-- Modelled from the spec: `rdf_flows.Notification.notification_types`, the
externally enumerated set of recognized notification types, is not part of
this repository; the spec and the source docstring name "ViewObject",
"HostInformation" and "GrantAccess" as members. -/
def notification_types : List String :=
  ["ViewObject", "HostInformation", "GrantAccess"]

/-- The loop `while len(pending) > 50: pending.Pop(0)`. -/
def evictLoop : List Notification → List Notification
  | [] => []
  | x :: t => if 50 < (x :: t).length then evictLoop t else x :: t

namespace GRRUser

/-- `GRRUser.Notify`: validate the type (raising `TypeError` before any
mutation), append a new entry stamped `now`, evict from the front down to 50,
and `Set` the result.  The first component is the stored pending list when the
call returns or raises; the second is the raised exception, if any. -/
def Notify (pending : List Notification) (message_type subject msg source : String)
    (now : Nat) : List Notification × Option GrrError :=
  if message_type ∉ notification_types then (pending, some .typeError)
  else (evictLoop (pending ++ [⟨message_type, subject, msg, source, now⟩]), none)

end GRRUser

/-- The scan `for idx in reversed(range(0, len(pending)))` of
`DeletePendingNotification`: returns the entries kept in `pending`, the
matching entries in the order they were appended to `shown` (highest index
first), and `delete_count`. -/
def delScan (ts : Nat) : List Notification → List Notification × List Notification × Nat
  | [] => ([], [], 0)
  | n :: rest =>
    let r := delScan ts rest
    if n.timestamp = ts then (r.1, r.2.1 ++ [n], r.2.2 + 1)
    else (n :: r.1, r.2.1, r.2.2)

namespace GRRUser

/-- `GRRUser.DeletePendingNotification`: move every pending entry whose
timestamp matches to `shown`, but raise `UniqueKeyError` — before the two
`Set` calls, so the stored state keeps its old value — when more than one
matched.  An empty pending list returns immediately. -/
def DeletePendingNotification (st : UserState) (timestamp : Nat) :
    UserState × Option GrrError :=
  if st.pending = [] then (st, none)
  else
    let r := delScan timestamp st.pending
    if r.2.2 > 1 then (st, some .uniqueKeyError)
    else ({ pending := r.1, shown := st.shown ++ r.2.1 }, none)

/-- `GRRUser.ShowNotifications`: build a fresh list by appending all pending
then all shown entries; when `reset` is true, `Set` it as the new shown list,
`Set` a fresh empty pending list and `Flush`.  Returns the merged list and the
stored state after the call. -/
def ShowNotifications (st : UserState) (reset : Bool) : List Notification × UserState :=
  let merged := st.pending ++ st.shown
  if reset then (merged, { pending := [], shown := merged })
  else (merged, st)

end GRRUser

/- ### Global notifications (`users.py`, `GlobalNotification` and friends) -/

/-- A `GlobalNotification` protobuf: `type` is the severity enum value,
`show_from` an `RDFDatetime` (microseconds) and `duration` a `Duration`
(also in microseconds here).  Unset numeric protobuf fields read as 0. -/
structure GlobalNotification where
  type : Nat
  message : String
  link : String
  show_from : Nat
  duration : Nat
deriving DecidableEq, Repr

/-- `rdfvalue.Duration("2w")` in microseconds. -/
def twoWeeksMicros : Nat := 1209600000000

namespace GlobalNotification

/-- `GlobalNotification.__init__`: after the protobuf fields are set, a falsy
(unset or zero) `duration` becomes two weeks and a falsy `show_from` becomes
`RDFDatetime.Now()` (the `now` argument). -/
def applyDefaults (n : GlobalNotification) (now : Nat) : GlobalNotification :=
  { n with
    duration := if n.duration = 0 then twoWeeksMicros else n.duration,
    show_from := if n.show_from = 0 then now else n.show_from }

/-- The visibility test of `GetPendingGlobalNotifications`:
`show_from + duration >= now and now >= show_from`. -/
def visibleAt (n : GlobalNotification) (now : Nat) : Bool :=
  decide (n.show_from + n.duration ≥ now) && decide (now ≥ n.show_from)

end GlobalNotification

namespace GlobalNotificationSet

/-- `GlobalNotificationSet.AddNotification`: drop every notification of the
new notification's type, append the new one, and re-sort by `type` (Python's
`sorted` is a stable sort, as is `List.mergeSort`). -/
def AddNotification (notifications : List GlobalNotification)
    (new : GlobalNotification) : List GlobalNotification :=
  List.mergeSort ((notifications.filter (fun m => m.type != new.type)) ++ [new])
    (fun a b => decide (a.type ≤ b.type))

end GlobalNotificationSet

/-- No two notifications of the set share a `type`. -/
def noDupTypes (l : List GlobalNotification) : Prop :=
  (l.map (fun n => n.type)).Nodup

/-- The `for notification in current_notifications` loop of
`GetPendingGlobalNotifications`, with its result accumulator: skip entries
structurally equal to a member of the user's shown set (`__contains__` is
Python list membership under `__eq__`), keep the ones inside their
visibility window. -/
def gpgnLoop (shown : List GlobalNotification) (now : Nat) :
    List GlobalNotification → List GlobalNotification → List GlobalNotification
  | [], acc => acc
  | n :: rest, acc =>
    if n ∈ shown then gpgnLoop shown now rest acc
    else if n.visibleAt now then gpgnLoop shown now rest (acc ++ [n])
    else gpgnLoop shown now rest acc

namespace GRRUser

/-- `GRRUser.GetPendingGlobalNotifications`: filter the registry's current
set (`registry`) against the user's `SHOWN_GLOBAL_NOTIFICATIONS` (`shown`)
and the visibility window at time `now`. -/
def GetPendingGlobalNotifications (registry shown : List GlobalNotification)
    (now : Nat) : List GlobalNotification :=
  gpgnLoop shown now registry []

end GRRUser

/- ### Helper lemmas -/

theorem lor_eq_zero_iff {x y : Nat} : x ||| y = 0 ↔ x = 0 ∧ y = 0 := by
  constructor
  · intro h
    have hb : ∀ i, x.testBit i = false ∧ y.testBit i = false := by
      intro i
      have := congrArg (fun n => Nat.testBit n i) h
      simpa using this
    exact ⟨Nat.eq_of_testBit_eq fun i => by simp [(hb i).1],
           Nat.eq_of_testBit_eq fun i => by simp [(hb i).2]⟩
  · rintro ⟨rfl, rfl⟩
    rfl

theorem foldStep_eq_zero (l : List (Nat × Nat)) : ∀ r : Nat,
    (l.foldl (fun rv p => rv ||| (p.1 ^^^ p.2)) r = 0) ↔ (r = 0 ∧ ∀ p ∈ l, p.1 = p.2) := by
  induction l with
  | nil => intro r; simp
  | cons p l ih =>
    intro r
    simp only [List.foldl_cons, ih, lor_eq_zero_iff, Nat.xor_eq_zero, List.mem_cons]
    constructor
    · rintro ⟨⟨hr, hp⟩, hl⟩
      exact ⟨hr, fun q hq => hq.elim (fun e => e ▸ hp) (hl q)⟩
    · rintro ⟨hr, hl⟩
      exact ⟨⟨hr, hl p (Or.inl rfl)⟩, fun q hq => hl q (Or.inr hq)⟩

theorem zip_forall_eq (a : PyStr) : ∀ b : PyStr, a.length = b.length →
    ((∀ p ∈ a.zip b, p.1 = p.2) ↔ a = b) := by
  induction a with
  | nil =>
    intro b h
    cases b with
    | nil => simp
    | cons y bs => simp at h
  | cons x as ih =>
    intro b h
    cases b with
    | nil => simp at h
    | cons y bs =>
      have hlen : as.length = bs.length := by simpa using h
      constructor
      · intro hp
        have hxy : x = y := hp (x, y) (by simp)
        have htail : as = bs := (ih bs hlen).mp (fun p hp2 => hp p (by simp [hp2]))
        simp [hxy, htail]
      · intro heq
        injection heq with h1 h2
        subst h1
        subst h2
        intro p hp
        simp only [List.zip_cons_cons, List.mem_cons] at hp
        rcases hp with e | hp
        · simp [e]
        · exact (ih as rfl).mpr rfl p hp

theorem safe_str_cmp_eq_iff (a b : PyStr) (h : a.length = b.length) :
    CryptedPassword.safe_str_cmp a b = true ↔ a = b := by
  simp only [CryptedPassword.safe_str_cmp, h, ne_eq, not_true_eq_false, if_false,
    beq_iff_eq, not_false_eq_true]
  rw [foldStep_eq_zero]
  simp only [true_and]
  exact zip_forall_eq a b h

theorem safe_str_cmp_self (a : PyStr) : CryptedPassword.safe_str_cmp a a = true :=
  (safe_str_cmp_eq_iff a a rfl).mpr rfl

theorem pySplit_append (sep : Nat) (xs ys : PyStr) (h : sep ∉ xs) :
    CryptedPassword.pySplit sep (xs ++ sep :: ys) =
      xs :: CryptedPassword.pySplit sep ys := by
  induction xs with
  | nil => simp [CryptedPassword.pySplit]
  | cons c cs ih =>
    have hc : ¬(c = sep) := fun e => h (by simp [e])
    have hcs : sep ∉ cs := fun m => h (by simp [m])
    simp only [List.cons_append, CryptedPassword.pySplit, if_neg hc, List.append_eq, ih hcs]

theorem isPrefixOf_append_self (l r : List Nat) : l.isPrefixOf (l ++ r) = true := by
  induction l with
  | nil => simp [List.isPrefixOf]
  | cons x xs ih => simp [List.isPrefixOf, ih]

theorem delScan_count (ts : Nat) (l : List Notification) :
    (delScan ts l).2.2 = (l.filter (fun n => n.timestamp == ts)).length := by
  induction l with
  | nil => rfl
  | cons n rest ih =>
    by_cases h : n.timestamp = ts
    · simp [delScan, h, ih]
    · simp [delScan, h, ih]

theorem evictLoop_eq_drop (l : List Notification) : evictLoop l = l.drop (l.length - 50) := by
  induction l with
  | nil => rfl
  | cons x t ih =>
    by_cases h : 50 < t.length + 1
    · simp only [evictLoop, List.length_cons, if_pos h, ih]
      have he : t.length + 1 - 50 = (t.length - 50) + 1 := by omega
      rw [he, List.drop_succ_cons]
    · simp only [evictLoop, List.length_cons, if_neg h]
      have he : t.length + 1 - 50 = 0 := by omega
      rw [he, List.drop_zero]

theorem gpgnLoop_eq_filter (shown : List GlobalNotification) (now : Nat)
    (l : List GlobalNotification) : ∀ acc,
    gpgnLoop shown now l acc =
      acc ++ l.filter (fun n => !(decide (n ∈ shown)) && n.visibleAt now) := by
  induction l with
  | nil => intro acc; simp [gpgnLoop]
  | cons n rest ih =>
    intro acc
    by_cases h1 : n ∈ shown
    · simp [gpgnLoop, h1, ih]
    · by_cases h2 : n.visibleAt now = true
      · simp [gpgnLoop, h1, h2, ih]
      · simp [gpgnLoop, h1, h2, ih]

theorem addNotification_perm (s : List GlobalNotification) (n : GlobalNotification) :
    (GlobalNotificationSet.AddNotification s n).Perm
      ((s.filter (fun m => m.type != n.type)) ++ [n]) :=
  List.mergeSort_perm _ _

theorem noDupTypes_addNotification (s : List GlobalNotification) (n : GlobalNotification)
    (h : noDupTypes s) : noDupTypes (GlobalNotificationSet.AddNotification s n) := by
  unfold noDupTypes at h ⊢
  rw [List.Perm.nodup_iff ((addNotification_perm s n).map (fun m => m.type))]
  rw [List.map_append]
  apply List.Nodup.append
  · exact List.Nodup.sublist (List.Sublist.map _ (List.filter_sublist s)) h
  · simp
  · intro a ha hb
    rw [List.mem_map] at ha
    obtain ⟨m, hm, rfl⟩ := ha
    rw [List.mem_filter] at hm
    have hne : m.type ≠ n.type := by simpa using hm.2
    simp at hb
    exact hne hb

theorem sorted_addNotification (s : List GlobalNotification) (n : GlobalNotification) :
    List.Pairwise (fun a b => a.type ≤ b.type) (GlobalNotificationSet.AddNotification s n) := by
  have hs : List.Pairwise (fun a b => decide (a.type ≤ b.type) = true)
      (List.mergeSort ((s.filter (fun m => m.type != n.type)) ++ [n])
        (fun a b => decide (a.type ≤ b.type))) :=
    List.sorted_mergeSort
      (fun a b c h1 h2 => by
        simp only [decide_eq_true_eq] at h1 h2 ⊢
        omega)
      (fun a b => by
        simp only [Bool.or_eq_true, decide_eq_true_eq]
        exact Nat.le_total a.type b.type)
      _
  exact hs.imp (fun hab => by simpa using hab)

theorem filter_addNotification (s : List GlobalNotification) (n : GlobalNotification) :
    (GlobalNotificationSet.AddNotification s n).filter (fun m => m.type == n.type) = [n] := by
  have hperm := (addNotification_perm s n).filter (fun m => m.type == n.type)
  have hr : ((s.filter (fun m => m.type != n.type)) ++ [n]).filter
      (fun m => m.type == n.type) = [n] := by
    rw [List.filter_append]
    have h1 : (s.filter (fun m => m.type != n.type)).filter (fun m => m.type == n.type) = [] := by
      rw [List.filter_eq_nil_iff]
      intro a ha
      rw [List.mem_filter] at ha
      simpa using ha.2
    have h2 : ([n] : List GlobalNotification).filter (fun m => m.type == n.type) = [n] := by
      simp
    rw [h1, h2, List.nil_append]
  rw [hr] at hperm
  exact List.perm_singleton.mp hperm

theorem noDupTypes_foldl (seq : List GlobalNotification) : ∀ s, noDupTypes s →
    noDupTypes (seq.foldl GlobalNotificationSet.AddNotification s) := by
  induction seq with
  | nil => intro s h; simpa using h
  | cons n rest ih => intro s h; exact ih _ (noDupTypes_addNotification s n h)

/- ### Claim theorems -/

/-- Claim C1 (counterexample): the round trip fails as universally stated — for
the salt `"$"` the recovered salt is the empty string, so
`CheckPassword(p, SetPassword(p, "$"))` is false. -/
theorem C1_counterexample :
    CryptedPassword.CheckPassword (fun _ _ => [])
      (CryptedPassword.SetPassword [] [CryptedPassword.dollar]) [] = false := by
  decide

/-- Claim C1 (amended): for every password and every salt that does not
contain the `"$"` separator, checking the password against the credential
produced by `SetPassword` succeeds. -/
theorem C1_round_trip (cryptFn : PyStr → PyStr → PyStr) (p s : PyStr)
    (h : CryptedPassword.dollar ∉ s) :
    CryptedPassword.CheckPassword cryptFn (CryptedPassword.SetPassword p s) p = true := by
  have hdecomp : CryptedPassword.SetPassword p s =
      CryptedPassword.sha256Tag ++ CryptedPassword.dollar ::
        (s ++ CryptedPassword.dollar :: sha256hex (s ++ p ++ s)) := by
    simp [CryptedPassword.SetPassword, CryptedPassword.CalculateHash,
      CryptedPassword.MakeTemplate]
  have hsplit : CryptedPassword.pySplit CryptedPassword.dollar (CryptedPassword.SetPassword p s)
      = CryptedPassword.sha256Tag :: s ::
          CryptedPassword.pySplit CryptedPassword.dollar (sha256hex (s ++ p ++ s)) := by
    rw [hdecomp, pySplit_append _ _ _ (by decide), pySplit_append _ _ _ h]
  have hpre : (CryptedPassword.sha256Tag ++ [CryptedPassword.dollar]).isPrefixOf
      (CryptedPassword.SetPassword p s) = true := by
    have he : CryptedPassword.SetPassword p s =
        (CryptedPassword.sha256Tag ++ [CryptedPassword.dollar]) ++
          (s ++ CryptedPassword.dollar :: sha256hex (s ++ p ++ s)) := by
      rw [hdecomp]; simp
    rw [he]
    exact isPrefixOf_append_self _ _
  rw [CryptedPassword.CheckPassword, if_pos hpre, hsplit]
  show CryptedPassword.safe_str_cmp _ (CryptedPassword.CalculateHash p s) = true
  exact safe_str_cmp_self _

/-- Claim C1 (witness). -/
theorem C1_round_trip_witness :
    CryptedPassword.dollar ∉ ([97, 98, 99] : PyStr) ∧
    CryptedPassword.CheckPassword (fun _ _ => [])
      (CryptedPassword.SetPassword [100] [97, 98, 99]) [100] = true :=
  ⟨by decide, C1_round_trip (fun _ _ => []) [100] [97, 98, 99] (by decide)⟩

/-- Claim C2: with no stored password, `GRRUser.CheckPassword` evaluates to
the distinct `None` outcome (the spec's `CredentialUnavailable`) for every
candidate, and that outcome is not the boolean `false`. -/
theorem C2_no_password (cryptFn : PyStr → PyStr → PyStr) (password : PyStr) :
    GRRUser.CheckPassword cryptFn none password = PwCheckResult.pyNone ∧
    ∀ b : Bool, PwCheckResult.pyNone ≠ PwCheckResult.pyBool b :=
  ⟨rfl, fun _ h => by cases h⟩

/-- Claim C3 (counterexample): with two pending notifications sharing
timestamp 5, `DeletePendingNotification 5` raises `UniqueKeyError` but leaves
the stored state unchanged — the matches are not moved to `shown`. -/
theorem C3_counterexample :
    GRRUser.DeletePendingNotification
      ⟨[⟨"ViewObject", "a", "m", "s", 5⟩, ⟨"ViewObject", "b", "m", "s", 5⟩], []⟩ 5 =
      (⟨[⟨"ViewObject", "a", "m", "s", 5⟩, ⟨"ViewObject", "b", "m", "s", 5⟩], []⟩,
        some GrrError.uniqueKeyError) := by
  decide

/-- Claim C3 (amended): when more than one pending notification carries the
timestamp, `DeletePendingNotification` signals `UniqueKeyError` and the raise
happens before the `Set` calls, so the stored pending and shown lists are
left unchanged. -/
theorem C3_delete_multi (st : UserState) (ts : Nat)
    (h : 1 < (st.pending.filter (fun n => n.timestamp == ts)).length) :
    GRRUser.DeletePendingNotification st ts = (st, some GrrError.uniqueKeyError) := by
  have hne : ¬(st.pending = []) := by
    intro e
    rw [e] at h
    simp at h
  have hcnt : (delScan ts st.pending).2.2 > 1 := by
    rw [delScan_count]
    omega
  simp only [GRRUser.DeletePendingNotification, if_neg hne, if_pos hcnt]

/-- Claim C3 (witness). -/
theorem C3_delete_multi_witness :
    (1 < ((UserState.mk [⟨"ViewObject", "a", "m", "s", 7⟩, ⟨"ViewObject", "b", "m", "s", 7⟩]
        []).pending.filter (fun n => n.timestamp == 7)).length) ∧
    GRRUser.DeletePendingNotification
      ⟨[⟨"ViewObject", "a", "m", "s", 7⟩, ⟨"ViewObject", "b", "m", "s", 7⟩], []⟩ 7 =
      (⟨[⟨"ViewObject", "a", "m", "s", 7⟩, ⟨"ViewObject", "b", "m", "s", 7⟩], []⟩,
        some GrrError.uniqueKeyError) :=
  ⟨by decide, C3_delete_multi _ 7 (by decide)⟩

/-- Claim C4: a successful `Notify` appends the new entry at the end and drops
exactly the oldest entries from the front, and the resulting pending list
never exceeds 50 entries. -/
theorem C4_notify_capacity (pending : List Notification)
    (mt subject msg source : String) (now : Nat) (h : mt ∈ notification_types) :
    GRRUser.Notify pending mt subject msg source now =
      ((pending ++ [Notification.mk mt subject msg source now]).drop
        (pending.length + 1 - 50), none) ∧
    ((GRRUser.Notify pending mt subject msg source now).1).length ≤ 50 := by
  have h1 : GRRUser.Notify pending mt subject msg source now =
      ((pending ++ [Notification.mk mt subject msg source now]).drop
        (pending.length + 1 - 50), none) := by
    rw [GRRUser.Notify, if_neg (not_not_intro h), evictLoop_eq_drop]
    simp
  refine ⟨h1, ?_⟩
  rw [h1]
  simp only [List.length_drop, List.length_append, List.length_cons, List.length_nil]
  omega

/-- Claim C4 (witness). -/
theorem C4_notify_capacity_witness :
    "ViewObject" ∈ notification_types ∧
    (GRRUser.Notify [] "ViewObject" "s" "m" "o" 1 =
      (([] ++ [Notification.mk "ViewObject" "s" "m" "o" 1]).drop
        (([] : List Notification).length + 1 - 50), none) ∧
     ((GRRUser.Notify [] "ViewObject" "s" "m" "o" 1).1).length ≤ 50) :=
  ⟨by decide, C4_notify_capacity [] "ViewObject" "s" "m" "o" 1 (by decide)⟩

/-- Claim C5: `ShowNotifications` returns pending concatenated before shown;
with `reset` the merged list becomes the stored shown list and pending is
cleared, without `reset` the stored state is untouched. -/
theorem C5_show_notifications (st : UserState) :
    GRRUser.ShowNotifications st true =
      (st.pending ++ st.shown, ⟨[], st.pending ++ st.shown⟩) ∧
    GRRUser.ShowNotifications st false = (st.pending ++ st.shown, st) :=
  ⟨rfl, rfl⟩

/-- Claim C6: `safe_str_cmp` reports a mismatch whenever the lengths differ,
and on equal lengths the OR-accumulated per-byte XORs vanish exactly when the
strings are equal. -/
theorem C6_safe_str_cmp (a b : PyStr) :
    (a.length ≠ b.length → CryptedPassword.safe_str_cmp a b = false) ∧
    (a.length = b.length → (CryptedPassword.safe_str_cmp a b = true ↔ a = b)) := by
  constructor
  · intro h
    simp [CryptedPassword.safe_str_cmp, h]
  · intro h
    exact safe_str_cmp_eq_iff a b h

/-- Claim C6 (witness). -/
theorem C6_safe_str_cmp_witness :
    (([1] : PyStr).length ≠ ([1, 2] : PyStr).length ∧
      CryptedPassword.safe_str_cmp [1] [1, 2] = false) ∧
    (([1, 2] : PyStr).length = ([1, 3] : PyStr).length ∧
      (CryptedPassword.safe_str_cmp [1, 2] [1, 3] = true ↔ ([1, 2] : PyStr) = [1, 3])) :=
  ⟨⟨by decide, (C6_safe_str_cmp [1] [1, 2]).1 (by decide)⟩,
   ⟨by decide, (C6_safe_str_cmp [1, 2] [1, 3]).2 (by decide)⟩⟩

/-- Claim C7: `GetPendingGlobalNotifications` returns exactly the registry
notifications that are not structurally equal to a member of the user's shown
set and whose visibility window contains `now`, in registry order — so a
registry in ascending type-priority order yields a result in that order. -/
theorem C7_pending_global (registry shown : List GlobalNotification) (now : Nat) :
    GRRUser.GetPendingGlobalNotifications registry shown now =
      registry.filter (fun n => !(decide (n ∈ shown)) && n.visibleAt now) ∧
    (List.Pairwise (fun a b => a.type ≤ b.type) registry →
      List.Pairwise (fun a b => a.type ≤ b.type)
        (GRRUser.GetPendingGlobalNotifications registry shown now)) := by
  have h1 : GRRUser.GetPendingGlobalNotifications registry shown now =
      registry.filter (fun n => !(decide (n ∈ shown)) && n.visibleAt now) := by
    rw [GRRUser.GetPendingGlobalNotifications, gpgnLoop_eq_filter]
    simp
  refine ⟨h1, fun hs => ?_⟩
  rw [h1]
  exact List.Pairwise.sublist (List.filter_sublist _) hs

/-- Claim C7 (witness). -/
theorem C7_pending_global_witness :
    (GRRUser.GetPendingGlobalNotifications [⟨1, "m", "l", 3, 4⟩] [] 5 =
      ([⟨1, "m", "l", 3, 4⟩] : List GlobalNotification).filter
        (fun n => !(decide (n ∈ ([] : List GlobalNotification))) && n.visibleAt 5)) ∧
    (List.Pairwise (fun a b => a.type ≤ b.type)
      ([⟨1, "m", "l", 3, 4⟩] : List GlobalNotification) ∧
     List.Pairwise (fun a b => a.type ≤ b.type)
      (GRRUser.GetPendingGlobalNotifications [⟨1, "m", "l", 3, 4⟩] [] 5)) :=
  ⟨(C7_pending_global [⟨1, "m", "l", 3, 4⟩] [] 5).1,
   by simp,
   (C7_pending_global [⟨1, "m", "l", 3, 4⟩] [] 5).2 (by simp)⟩

/-- Claim C8: starting from a set with at most one notification per type,
any sequence of `AddNotification` calls preserves that invariant, every call
leaves the set sorted in ascending type priority, and after adding `n` the
set's entries of type `n.type` are exactly `[n]` (replacement). -/
theorem C8_add_notification (s : List GlobalNotification) (n : GlobalNotification)
    (seq : List GlobalNotification) (h : noDupTypes s) :
    noDupTypes (seq.foldl GlobalNotificationSet.AddNotification s) ∧
    List.Pairwise (fun a b => a.type ≤ b.type) (GlobalNotificationSet.AddNotification s n) ∧
    (GlobalNotificationSet.AddNotification s n).filter (fun m => m.type == n.type) = [n] :=
  ⟨noDupTypes_foldl seq s h, sorted_addNotification s n, filter_addNotification s n⟩

/-- Claim C8 (witness). -/
theorem C8_add_notification_witness :
    noDupTypes [] ∧
    (noDupTypes ([⟨2, "x", "", 0, 0⟩].foldl GlobalNotificationSet.AddNotification []) ∧
     List.Pairwise (fun a b => a.type ≤ b.type)
       (GlobalNotificationSet.AddNotification [] ⟨1, "m", "l", 0, 0⟩) ∧
     (GlobalNotificationSet.AddNotification [] ⟨1, "m", "l", 0, 0⟩).filter
       (fun m => m.type == (⟨1, "m", "l", 0, 0⟩ : GlobalNotification).type) =
       [⟨1, "m", "l", 0, 0⟩]) :=
  ⟨by simp [noDupTypes],
   C8_add_notification [] ⟨1, "m", "l", 0, 0⟩ [⟨2, "x", "", 0, 0⟩] (by simp [noDupTypes])⟩

/-- Claim C9: a message type outside the recognized set makes `Notify` raise
(the spec's `InvalidNotificationType`, a Python `TypeError`) with the stored
pending state unchanged. -/
theorem C9_notify_invalid (pending : List Notification)
    (mt subject msg source : String) (now : Nat) (h : mt ∉ notification_types) :
    GRRUser.Notify pending mt subject msg source now = (pending, some GrrError.typeError) := by
  rw [GRRUser.Notify, if_pos h]

/-- Claim C9 (witness). -/
theorem C9_notify_invalid_witness :
    "Bogus" ∉ notification_types ∧
    GRRUser.Notify [] "Bogus" "s" "m" "o" 3 = ([], some GrrError.typeError) :=
  ⟨by decide, C9_notify_invalid [] "Bogus" "s" "m" "o" 3 (by decide)⟩

/-- Claim C10: a `GlobalNotification` whose `duration` and `show_from` fields
are unset gets a two-week duration and `show_from = now`, making it visible
exactly from `now` through `now` plus two weeks. -/
theorem C10_defaults (n : GlobalNotification) (now : Nat)
    (hd : n.duration = 0) (hs : n.show_from = 0) :
    (n.applyDefaults now).duration = twoWeeksMicros ∧
    (n.applyDefaults now).show_from = now ∧
    ∀ t, ((n.applyDefaults now).visibleAt t = true ↔ (now ≤ t ∧ t ≤ now + twoWeeksMicros)) := by
  have hval : n.applyDefaults now =
      { n with duration := twoWeeksMicros, show_from := now } := by
    simp [GlobalNotification.applyDefaults, hd, hs]
  refine ⟨by rw [hval], by rw [hval], fun t => ?_⟩
  rw [hval]
  simp only [GlobalNotification.visibleAt, Bool.and_eq_true, decide_eq_true_eq, ge_iff_le]
  omega

/-- Claim C10 (witness). -/
theorem C10_defaults_witness :
    (⟨1, "m", "l", 0, 0⟩ : GlobalNotification).duration = 0 ∧
    (⟨1, "m", "l", 0, 0⟩ : GlobalNotification).show_from = 0 ∧
    (((⟨1, "m", "l", 0, 0⟩ : GlobalNotification).applyDefaults 10).duration = twoWeeksMicros ∧
     ((⟨1, "m", "l", 0, 0⟩ : GlobalNotification).applyDefaults 10).show_from = 10 ∧
     ∀ t, (((⟨1, "m", "l", 0, 0⟩ : GlobalNotification).applyDefaults 10).visibleAt t = true ↔
       (10 ≤ t ∧ t ≤ 10 + twoWeeksMicros))) :=
  ⟨rfl, rfl, C10_defaults ⟨1, "m", "l", 0, 0⟩ 10 rfl rfl⟩
